import Mathlib

/-!
# Verification of the zava product upload and search scripts

Shallow embedding of the pure logic of `zava_product_upload.py` and
`render_table.py`: product records, the embedding-generation loop, the
batched document upload, the index schema builder, and the result-table
renderer. External services (the search index, the embedding API, the
console) are modelled as oracle functions and as explicit traces of the
calls issued to them.
-/

/-- A product record, as read from `product_data_flat.json` and mutated by
`generate_embeddings`. The embedding vector type `E` is opaque to the
scripts (they only store what the API returns), so it is a parameter.
The `price` field is likewise only carried, never computed on, so it is
represented by an integer carrier. -/
structure Product (E : Type) where
  sku : String
  name : String
  description : String
  price : Int
  stock_level : Int
  categories : List String
  embedding : Option E := none
deriving DecidableEq, Repr

/-- Azure AI Search upload batch size used by `upload_products`
(`batch_size = 1000`). -/
def batch_size : Nat := 1000

/-- The loop `for i in range(0, len(products), batch_size)` of
`upload_products`, started at index `i`: each iteration slices
`products[i : i + batch_size]` and issues one `upload_documents` call with
that batch. The returned list is the sequence of batches passed to
`upload_documents`, in call order. -/
def uploadBatchesFrom (products : List α) (i : Nat) : List (List α) :=
  if _h : i < products.length then
    ((products.drop i).take batch_size) :: uploadBatchesFrom products (i + batch_size)
  else
    []
termination_by products.length - i
decreasing_by
  have : 0 < batch_size := by decide
  omega

/-- The batches uploaded by `upload_products products`, in order: the loop
of `uploadBatchesFrom` started at index 0. -/
def uploadBatches (products : List α) : List (List α) :=
  uploadBatchesFrom products 0

theorem uploadBatchesFrom_join (products : List α) (i : Nat) :
    (uploadBatchesFrom products i).flatten = products.drop i := by
  rw [uploadBatchesFrom]
  split
  · rename_i h
    rw [List.flatten_cons, uploadBatchesFrom_join products (i + batch_size)]
    rw [show products.drop (i + batch_size) = (products.drop i).drop batch_size by
      rw [List.drop_drop]]
    exact List.take_append_drop _ _
  · rename_i h
    rw [List.flatten_nil, Eq.comm, List.drop_eq_nil_iff]
    omega
termination_by products.length - i
decreasing_by
  have : 0 < batch_size := by decide
  omega

theorem uploadBatchesFrom_get? (products : List α) (i k : Nat) :
    (uploadBatchesFrom products i)[k]? =
      if i + batch_size * k < products.length then
        some ((products.drop (i + batch_size * k)).take batch_size)
      else none := by
  rw [uploadBatchesFrom]
  split
  · rename_i h
    match k with
    | 0 => simp [h]
    | k + 1 =>
      rw [List.getElem?_cons_succ, uploadBatchesFrom_get? products (i + batch_size) k]
      have : i + batch_size + batch_size * k = i + batch_size * (k + 1) := by ring
      rw [this]
  · rename_i h
    have : ¬ i + batch_size * k < products.length := by omega
    simp [this]
termination_by products.length - i
decreasing_by
  have : 0 < batch_size := by decide
  omega

theorem uploadBatchesFrom_length (products : List α) (i : Nat) :
    (uploadBatchesFrom products i).length =
      (products.length - i + (batch_size - 1)) / batch_size := by
  rw [uploadBatchesFrom]
  split
  · rename_i h
    rw [List.length_cons, uploadBatchesFrom_length products (i + batch_size)]
    simp only [batch_size] at h ⊢
    omega
  · rename_i h
    simp only [batch_size] at h ⊢
    simp only [List.length_nil]
    omega
termination_by products.length - i
decreasing_by
  have : 0 < batch_size := by decide
  omega

theorem uploadBatchesFrom_dropLast_lengths (products : List α) (i : Nat) :
    (uploadBatchesFrom products i).dropLast.map List.length =
      List.replicate ((uploadBatchesFrom products i).length - 1) batch_size := by
  rw [uploadBatchesFrom]
  split
  · rename_i h
    by_cases h2 : i + batch_size < products.length
    · have hne : uploadBatchesFrom products (i + batch_size) ≠ [] := by
        rw [uploadBatchesFrom]
        simp [h2]
      rw [List.dropLast_cons_of_ne_nil hne, List.map_cons,
        uploadBatchesFrom_dropLast_lengths products (i + batch_size)]
      have hlen : ((products.drop i).take batch_size).length = batch_size := by
        rw [List.length_take, List.length_drop]
        omega
      rw [hlen]
      have hpos : 0 < (uploadBatchesFrom products (i + batch_size)).length := by
        cases hx : uploadBatchesFrom products (i + batch_size) with
        | nil => exact absurd hx hne
        | cons b bs => simp
      rw [List.length_cons]
      rw [show (uploadBatchesFrom products (i + batch_size)).length + 1 - 1
            = ((uploadBatchesFrom products (i + batch_size)).length - 1) + 1 by omega]
      rw [List.replicate_succ]
    · have hnil : uploadBatchesFrom products (i + batch_size) = [] := by
        rw [uploadBatchesFrom]
        simp [h2]
      rw [hnil]
      simp
  · simp
termination_by products.length - i
decreasing_by
  have : 0 < batch_size := by decide
  omega

/-- Claim C1: `upload_products` issues one `upload_documents` call per
contiguous 1000-element slice of the product list, in order: the k-th
call receives `products[1000*k : 1000*(k+1)]`, the concatenation of all
batches is the original list, every batch except possibly the last has
exactly 1000 elements, the number of calls is `ceil(n/1000)`, and an
empty list yields zero calls. -/
theorem upload_products_batching (products : List α) :
    (uploadBatches products).flatten = products
    ∧ (∀ k : Nat, (uploadBatches products)[k]? =
        if batch_size * k < products.length then
          some ((products.drop (batch_size * k)).take batch_size)
        else none)
    ∧ (uploadBatches products).dropLast.map List.length =
        List.replicate ((uploadBatches products).length - 1) batch_size
    ∧ (uploadBatches products).length = (products.length + (batch_size - 1)) / batch_size
    ∧ uploadBatches ([] : List α) = [] := by
  refine ⟨?_, ?_, ?_, ?_, ?_⟩
  · simpa using uploadBatchesFrom_join products 0
  · intro k
    simpa using uploadBatchesFrom_get? products 0 k
  · exact uploadBatchesFrom_dropLast_lengths products 0
  · simpa using uploadBatchesFrom_length products 0
  · rw [uploadBatches, uploadBatchesFrom]
    simp

/-- The text embedded for a product in `generate_embeddings`:
`f"{product['name']} {product['description']} {' '.join(product['categories'])}"`. -/
def textToEmbed (p : Product E) : String :=
  p.name ++ " " ++ p.description ++ " " ++ String.intercalate " " p.categories

/-- The periodic progress line of `generate_embeddings`:
`f"  Generated embeddings for {i + 1}/{len(products)} products"`. -/
def progressLine (k n : Nat) : String :=
  s!"  Generated embeddings for {k}/{n} products"

/-- The final summary line of `generate_embeddings`:
`f"Generated embeddings for all {len(products)} products."`. -/
def summaryLine (n : Nat) : String :=
  s!"Generated embeddings for all {n} products."

/-- Result of running `generate_embeddings`: the product list after the
in-place mutation, the sequence of input texts sent to the embeddings API
(one per `openai_client.embeddings.create` call, in call order), and the
lines printed to the console, in order. -/
structure EmbedRun (E : Type) where
  products : List (Product E)
  requests : List String
  output : List String
deriving DecidableEq, Repr

/-- The `for i, product in enumerate(products)` loop body of
`generate_embeddings`, with `i` the current index and `n` the constant
`len(products)`: builds the text, requests one embedding, stores it under
the `embedding` key of the same record, and prints a progress line when
`(i + 1) % 100 == 0`. The oracle `embed` models the embeddings API. -/
def generateEmbeddingsLoop (embed : String → E) (n : Nat) :
    Nat → List (Product E) → EmbedRun E
  | _, [] => ⟨[], [], []⟩
  | i, p :: rest =>
    let t := textToEmbed p
    let r := generateEmbeddingsLoop embed n (i + 1) rest
    ⟨{ p with embedding := some (embed t) } :: r.products,
     t :: r.requests,
     (if (i + 1) % 100 = 0 then [progressLine (i + 1) n] else []) ++ r.output⟩

/-- `generate_embeddings(openai_client, products)`: prints the header
line, runs the loop from index 0, prints the summary line. -/
def generate_embeddings (embed : String → E) (products : List (Product E)) :
    EmbedRun E :=
  let r := generateEmbeddingsLoop embed products.length 0 products
  ⟨r.products, r.requests,
   "Generating embeddings for products..." :: r.output ++ [summaryLine products.length]⟩

/-- A record with its `embedding` key removed, for stating that
`generate_embeddings` changes nothing else. -/
def stripEmbedding (p : Product E) : Product E := { p with embedding := none }

theorem generateEmbeddingsLoop_products (embed : String → E) (n i : Nat)
    (products : List (Product E)) :
    (generateEmbeddingsLoop embed n i products).products =
      products.map (fun p => { p with embedding := some (embed (textToEmbed p)) }) := by
  induction products generalizing i with
  | nil => rfl
  | cons p rest ih => simp [generateEmbeddingsLoop, ih]

theorem generateEmbeddingsLoop_requests (embed : String → E) (n i : Nat)
    (products : List (Product E)) :
    (generateEmbeddingsLoop embed n i products).requests =
      products.map textToEmbed := by
  induction products generalizing i with
  | nil => rfl
  | cons p rest ih => simp [generateEmbeddingsLoop, ih]

theorem generateEmbeddingsLoop_output (embed : String → E) (n i : Nat)
    (products : List (Product E)) :
    (generateEmbeddingsLoop embed n i products).output =
      (List.range' (i + 1) products.length).filterMap
        (fun k => if k % 100 = 0 then some (progressLine k n) else none) := by
  induction products generalizing i with
  | nil => rfl
  | cons p rest ih =>
    rw [List.length_cons, List.range'_succ, List.filterMap_cons]
    by_cases h : (i + 1) % 100 = 0
    · simp [generateEmbeddingsLoop, h, ih]
    · simp [generateEmbeddingsLoop, h, ih]

theorem progress_line_count (n : Nat) (f : Nat → String) :
    ((List.range' 1 n).filterMap
        (fun k => if k % 100 = 0 then some (f k) else none)).length = n / 100 := by
  induction n with
  | zero => rfl
  | succ m ih =>
    rw [List.range'_concat, List.filterMap_append, List.length_append, ih]
    by_cases h : (1 + 1 * m) % 100 = 0
    · simp only [List.filterMap_cons, h, if_pos, List.filterMap_nil, List.length_cons,
        List.length_nil]
      omega
    · simp only [List.filterMap_cons, h, if_neg, not_false_iff, List.filterMap_nil,
        List.length_nil]
      omega

/-- Claim C2: for every product record, `generate_embeddings` requests
exactly one embedding, whose input text is the name, description, and
space-joined categories concatenated with single spaces, and stores the
returned vector on that same record under the `embedding` key. -/
theorem generate_embeddings_requests_and_store (embed : String → E)
    (products : List (Product E)) :
    (generate_embeddings embed products).requests =
      products.map (fun p =>
        p.name ++ " " ++ p.description ++ " " ++ String.intercalate " " p.categories)
    ∧ (generate_embeddings embed products).products =
      products.map (fun p =>
        { p with embedding := some (embed (p.name ++ " " ++ p.description ++ " "
            ++ String.intercalate " " p.categories)) }) := by
  constructor
  · rw [show (generate_embeddings embed products).requests
        = (generateEmbeddingsLoop embed products.length 0 products).requests from rfl]
    rw [generateEmbeddingsLoop_requests]
    rfl
  · rw [show (generate_embeddings embed products).products
        = (generateEmbeddingsLoop embed products.length 0 products).products from rfl]
    rw [generateEmbeddingsLoop_products]
    rfl

/-- Claim C3: `generate_embeddings` mutates each record only by adding the
`embedding` key: the length and order of the list are unchanged, and at
every position the `sku`, `name`, `description`, `price`, `stock_level`
and `categories` fields are unchanged. -/
theorem generate_embeddings_frame (embed : String → E)
    (products : List (Product E)) :
    (generate_embeddings embed products).products.length = products.length
    ∧ (generate_embeddings embed products).products.map stripEmbedding
        = products.map stripEmbedding
    ∧ (∀ k : Nat,
        (generate_embeddings embed products).products[k]?.map Product.sku
          = products[k]?.map Product.sku
        ∧ (generate_embeddings embed products).products[k]?.map Product.name
          = products[k]?.map Product.name
        ∧ (generate_embeddings embed products).products[k]?.map Product.description
          = products[k]?.map Product.description
        ∧ (generate_embeddings embed products).products[k]?.map Product.price
          = products[k]?.map Product.price
        ∧ (generate_embeddings embed products).products[k]?.map Product.stock_level
          = products[k]?.map Product.stock_level
        ∧ (generate_embeddings embed products).products[k]?.map Product.categories
          = products[k]?.map Product.categories) := by
  have hp : (generate_embeddings embed products).products =
      products.map (fun p => { p with embedding := some (embed (textToEmbed p)) }) := by
    rw [show (generate_embeddings embed products).products
        = (generateEmbeddingsLoop embed products.length 0 products).products from rfl]
    exact generateEmbeddingsLoop_products embed products.length 0 products
  refine ⟨?_, ?_, ?_⟩
  · rw [hp, List.length_map]
  · rw [hp, List.map_map]
    rfl
  · intro k
    rw [hp, List.getElem?_map]
    refine ⟨?_, ?_, ?_, ?_, ?_, ?_⟩ <;>
      · rw [Option.map_map]
        rfl

/-- Claim C5: `generate_embeddings` emits a progress line exactly when
the 1-based count of processed records is a multiple of 100 — hence
`n / 100` progress lines in total — and after all of them one final
summary line reporting `n`. -/
theorem generate_embeddings_progress (embed : String → E)
    (products : List (Product E)) :
    (generate_embeddings embed products).output =
      "Generating embeddings for products..."
        :: ((List.range' 1 products.length).filterMap fun k =>
              if k % 100 = 0 then some (progressLine k products.length) else none)
        ++ [summaryLine products.length]
    ∧ ((List.range' 1 products.length).filterMap fun k =>
          if k % 100 = 0 then some (progressLine k products.length) else none).length
        = products.length / 100 := by
  constructor
  · rw [show (generate_embeddings embed products).output
        = "Generating embeddings for products..."
            :: (generateEmbeddingsLoop embed products.length 0 products).output
            ++ [summaryLine products.length] from rfl]
    rw [generateEmbeddingsLoop_output]
  · exact progress_line_count products.length (fun k => progressLine k products.length)

/-- `EMBEDDING_DIMENSIONS = 3072` (text-embedding-3-large dimensions). -/
def EMBEDDING_DIMENSIONS : Nat := 3072

/-- The field data types used by the schema
(`SearchFieldDataType.String`, `.Double`, `.Int32`, `.Single`,
`.Collection(...)` in the SDK). -/
inductive SearchFieldDataType where
  | string
  | double
  | int32
  | single
  | collection (t : SearchFieldDataType)
deriving DecidableEq, Repr

/-- A field of the index schema, with the attributes the script sets.
Unset attributes keep the SDK defaults (`false` / absent); `SimpleField`
constructs a non-searchable field and `SearchableField` a searchable one. -/
structure SearchField where
  name : String
  type : SearchFieldDataType
  key : Bool := false
  searchable : Bool := false
  filterable : Bool := false
  sortable : Bool := false
  facetable : Bool := false
  vector_search_dimensions : Option Nat := none
  vector_search_profile_name : Option String := none
deriving DecidableEq, Repr

/-- `HnswParameters(metric="cosine")`. -/
structure HnswParameters where
  metric : String
deriving DecidableEq, Repr

/-- `HnswAlgorithmConfiguration(name=..., parameters=...)`. -/
structure HnswAlgorithmConfiguration where
  name : String
  parameters : HnswParameters
deriving DecidableEq, Repr

/-- `VectorSearchProfile(name=..., algorithm_configuration_name=...)`. -/
structure VectorSearchProfile where
  name : String
  algorithm_configuration_name : String
deriving DecidableEq, Repr

/-- `VectorSearch(profiles=..., algorithms=...)`. -/
structure VectorSearch where
  profiles : List VectorSearchProfile
  algorithms : List HnswAlgorithmConfiguration
deriving DecidableEq, Repr

/-- `SemanticField(field_name=...)`. -/
structure SemanticField where
  field_name : String
deriving DecidableEq, Repr

/-- `SemanticPrioritizedFields(title_field=..., content_fields=..., keywords_fields=...)`. -/
structure SemanticPrioritizedFields where
  title_field : SemanticField
  content_fields : List SemanticField
  keywords_fields : List SemanticField
deriving DecidableEq, Repr

/-- `SemanticConfiguration(name=..., prioritized_fields=...)`. -/
structure SemanticConfiguration where
  name : String
  prioritized_fields : SemanticPrioritizedFields
deriving DecidableEq, Repr

/-- `SemanticSearch(default_configuration_name=..., configurations=...)`. -/
structure SemanticSearch where
  default_configuration_name : String
  configurations : List SemanticConfiguration
deriving DecidableEq, Repr

/-- `SearchIndex(name=..., fields=..., semantic_search=..., vector_search=...)`. -/
structure SearchIndex where
  name : String
  fields : List SearchField
  semantic_search : SemanticSearch
  vector_search : VectorSearch
deriving DecidableEq, Repr

/-- `create_product_index_schema(index_name)`: the declarative index
schema built by the script, field by field as in the source. -/
def create_product_index_schema (index_name : String) : SearchIndex :=
  let fields : List SearchField := [
    { name := "sku", type := .string, key := true, filterable := true, sortable := true },
    { name := "name", type := .string, searchable := true, sortable := true },
    { name := "description", type := .string, searchable := true },
    { name := "price", type := .double, filterable := true, sortable := true,
      facetable := true },
    { name := "stock_level", type := .int32, filterable := true, sortable := true,
      facetable := true },
    { name := "categories", type := .collection .string, searchable := true,
      filterable := true, facetable := true },
    { name := "embedding", type := .collection .single, searchable := true,
      vector_search_dimensions := some EMBEDDING_DIMENSIONS,
      vector_search_profile_name := some "embedding-profile" } ]
  let vector_search : VectorSearch :=
    { profiles := [
        { name := "embedding-profile", algorithm_configuration_name := "hnsw-config" } ],
      algorithms := [
        { name := "hnsw-config", parameters := { metric := "cosine" } } ] }
  let semantic_config : SemanticConfiguration :=
    { name := "products-semantic-config",
      prioritized_fields := { title_field := { field_name := "name" },
                              content_fields := [ { field_name := "description" } ],
                              keywords_fields := [ { field_name := "categories" } ] } }
  let semantic_search : SemanticSearch :=
    { default_configuration_name := "products-semantic-config",
      configurations := [semantic_config] }
  { name := index_name, fields := fields, semantic_search := semantic_search,
    vector_search := vector_search }

/-- Claim C6: for every index name, the schema declares the `embedding`
field as a searchable vector field of fixed dimensionality
`EMBEDDING_DIMENSIONS = 3072`, and the field list does not depend on the
input at all. -/
theorem embedding_field_dimensions (index_name : String) :
    EMBEDDING_DIMENSIONS = 3072
    ∧ ((create_product_index_schema index_name).fields.filter
          (fun f => f.name == "embedding")).map
        (fun f => (f.vector_search_dimensions, f.searchable, f.type))
        = [(some EMBEDDING_DIMENSIONS, true, .collection .single)]
    ∧ (create_product_index_schema index_name).fields
        = (create_product_index_schema "zava-products-index").fields := by
  refine ⟨rfl, rfl, rfl⟩

/-- Claim C7: in the schema the field `sku` is the unique field marked as
the index key, and nothing in the scripts checks or enforces uniqueness of
`sku` values: a list containing the same record twice is embedded and
uploaded in full, one embedding request per occurrence and no occurrence
dropped. -/
theorem sku_unique_key_not_enforced (index_name : String) (embed : String → E)
    (p : Product E) (products : List (Product E)) :
    ((create_product_index_schema index_name).fields.filter
        (fun f => f.key)).map (fun f => f.name) = ["sku"]
    ∧ (uploadBatches (p :: p :: products)).flatten = p :: p :: products
    ∧ (generate_embeddings embed (p :: p :: products)).requests
        = textToEmbed p :: textToEmbed p :: products.map textToEmbed := by
  refine ⟨rfl, ?_, ?_⟩
  · simpa using uploadBatchesFrom_join (p :: p :: products) 0
  · rw [show (generate_embeddings embed (p :: p :: products)).requests
        = (generateEmbeddingsLoop embed (p :: p :: products).length
            0 (p :: p :: products)).requests from rfl]
    rw [generateEmbeddingsLoop_requests]
    rfl

/-- Claim C10: the schema is internally consistent: the `embedding`
field names the vector profile `embedding-profile`, which is declared and
names the algorithm `hnsw-config`, which is declared; and the semantic
default configuration name `products-semantic-config` is declared. -/
theorem schema_internal_consistency (index_name : String) :
    ((create_product_index_schema index_name).fields.filter
        (fun f => f.name == "embedding")).map
      (fun f => f.vector_search_profile_name) = [some "embedding-profile"]
    ∧ "embedding-profile" ∈
        (create_product_index_schema index_name).vector_search.profiles.map
          (fun pr => pr.name)
    ∧ (create_product_index_schema index_name).vector_search.profiles.map
        (fun pr => pr.algorithm_configuration_name) = ["hnsw-config"]
    ∧ "hnsw-config" ∈
        (create_product_index_schema index_name).vector_search.algorithms.map
          (fun a => a.name)
    ∧ (create_product_index_schema
        index_name).semantic_search.default_configuration_name
        = "products-semantic-config"
    ∧ "products-semantic-config" ∈
        (create_product_index_schema index_name).semantic_search.configurations.map
          (fun c => c.name) := by
  refine ⟨rfl, ?_, rfl, ?_, rfl, ?_⟩ <;> simp [create_product_index_schema]

/-- State after running `generate_embeddings` against an embeddings API
that may raise: the product list as mutated so far (records embedded
before a failure keep their embedding; the failing record and all later
records are untouched, and nothing is rolled back), the trace of API
inputs, and the raised error, if any. A raised error stops the loop at
once: the exception propagates out of the function uncaught. -/
structure EmbedTryRun (E ε : Type) where
  products : List (Product E)
  requests : List String
  err : Option ε
deriving DecidableEq, Repr

/-- `generate_embeddings` with a fallible embeddings API: one call per
record, stop at the first error, no retry, no rollback. -/
def generate_embeddings_try (embed : String → Except ε E) :
    List (Product E) → EmbedTryRun E ε
  | [] => ⟨[], [], none⟩
  | p :: rest =>
    match embed (textToEmbed p) with
    | .error e => ⟨p :: rest, [textToEmbed p], some e⟩
    | .ok v =>
      let r := generate_embeddings_try embed rest
      ⟨{ p with embedding := some v } :: r.products,
       textToEmbed p :: r.requests, r.err⟩

/-- The record as left behind by a successful embedding call. -/
def applyEmbedTry (embed : String → Except ε E) (p : Product E) : Product E :=
  { p with embedding := (embed (textToEmbed p)).toOption }

/-- The upload loop of `upload_products` with a fallible
`upload_documents`: one call per batch, stop at the first error, no retry;
batches uploaded before the failure stay uploaded. Returns the trace of
attempted batches and the raised error, if any. -/
def upload_batches_try (upload : List (Product E) → Except ε Unit) :
    List (List (Product E)) → List (List (Product E)) × Option ε
  | [] => ([], none)
  | b :: rest =>
    match upload b with
    | .error e => ([b], some e)
    | .ok _ =>
      let r := upload_batches_try upload rest
      (b :: r.1, r.2)

/-- `upload_products` with a fallible `upload_documents`. -/
def upload_products_try (upload : List (Product E) → Except ε Unit)
    (products : List (Product E)) : List (List (Product E)) × Option ε :=
  upload_batches_try upload (uploadBatches products)

/-- `main()` with fallible external services: create/update the index,
load the file, generate embeddings, upload. Any error propagates at once
and ends the run; later steps are not reached. Returns the embeddings
trace, the upload trace and the error, if any. -/
def main_try (createIdx : Except ε Unit) (embed : String → Except ε E)
    (upload : List (Product E) → Except ε Unit) (loaded : List (Product E)) :
    List String × List (List (Product E)) × Option ε :=
  match createIdx with
  | .error e => ([], [], some e)
  | .ok _ =>
    let r := generate_embeddings_try embed loaded
    match r.err with
    | some e => (r.requests, [], some e)
    | none =>
      let u := upload_products_try upload r.products
      (r.requests, u.1, u.2)

theorem generate_embeddings_try_split (embed : String → Except ε E)
    (good : List (Product E)) (bad : Product E) (rest : List (Product E)) (e : ε)
    (hgood : ∀ p ∈ good, (embed (textToEmbed p)).toOption.isSome = true)
    (hbad : embed (textToEmbed bad) = Except.error e) :
    generate_embeddings_try embed (good ++ bad :: rest)
      = ⟨good.map (applyEmbedTry embed) ++ bad :: rest,
         (good ++ [bad]).map textToEmbed, some e⟩ := by
  induction good with
  | nil => simp [generate_embeddings_try, hbad]
  | cons p good ih =>
    have hp := hgood p (List.mem_cons_self p good)
    obtain ⟨v, hv⟩ : ∃ v, embed (textToEmbed p) = Except.ok v := by
      cases hx : embed (textToEmbed p) with
      | error e2 => rw [hx] at hp; simp [Except.toOption] at hp
      | ok v => exact ⟨v, rfl⟩
    have ih2 := ih (fun q hq => hgood q (List.mem_cons_of_mem p hq))
    simp [generate_embeddings_try, hv, applyEmbedTry, Except.toOption, ih2]

theorem upload_batches_try_split (upload : List (Product E) → Except ε Unit)
    (goodB : List (List (Product E))) (badB : List (Product E))
    (restB : List (List (Product E))) (e : ε)
    (hgoodB : ∀ b ∈ goodB, upload b = Except.ok ())
    (hbadB : upload badB = Except.error e) :
    upload_batches_try upload (goodB ++ badB :: restB) = (goodB ++ [badB], some e) := by
  induction goodB with
  | nil => simp [upload_batches_try, hbadB]
  | cons b goodB ih =>
    have hb := hgoodB b (List.mem_cons_self b goodB)
    have ih2 := ih (fun q hq => hgoodB q (List.mem_cons_of_mem b hq))
    simp [upload_batches_try, hb, ih2]

/-- Claim C4: nothing catches or retries: a raised error from any external
call (index create/update, embedding request, document upload) propagates
immediately out of `generate_embeddings`, `upload_products`, `create_index`
and `main`, with no retry and no recovery; records embedded or batches
uploaded before the failure are not rolled back, and the failing call is
issued exactly once, with no calls after it. -/
theorem errors_propagate_without_retry
    (embed : String → Except ε E) (upload : List (Product E) → Except ε Unit)
    (good : List (Product E)) (bad : Product E) (rest : List (Product E))
    (goodB : List (List (Product E))) (badB : List (Product E))
    (restB : List (List (Product E))) (e : ε)
    (hgood : ∀ p ∈ good, (embed (textToEmbed p)).toOption.isSome = true)
    (hbad : embed (textToEmbed bad) = Except.error e)
    (hgoodB : ∀ b ∈ goodB, upload b = Except.ok ())
    (hbadB : upload badB = Except.error e) :
    generate_embeddings_try embed (good ++ bad :: rest)
      = ⟨good.map (applyEmbedTry embed) ++ bad :: rest,
         (good ++ [bad]).map textToEmbed, some e⟩
    ∧ upload_batches_try upload (goodB ++ badB :: restB) = (goodB ++ [badB], some e)
    ∧ main_try (Except.error e) embed upload good = ([], [], some e)
    ∧ main_try (Except.ok ()) embed upload (good ++ bad :: rest)
      = ((good ++ [bad]).map textToEmbed, [], some e) := by
  refine ⟨generate_embeddings_try_split embed good bad rest e hgood hbad,
    upload_batches_try_split upload goodB badB restB e hgoodB hbadB, rfl, ?_⟩
  rw [main_try]
  rw [generate_embeddings_try_split embed good bad rest e hgood hbad]

/-- Sample record whose embedding request succeeds under `sampleEmbed`. -/
def sampleGood : Product Nat :=
  { sku := "sku1", name := "A", description := "", price := 0, stock_level := 0,
    categories := [] }

/-- Sample record whose embedding request fails under `sampleEmbed`. -/
def sampleBad : Product Nat :=
  { sku := "sku2", name := "B", description := "", price := 0, stock_level := 0,
    categories := [] }

/-- Concrete embeddings oracle: fails exactly on the text of `sampleBad`. -/
def sampleEmbed : String → Except Nat Nat :=
  fun s => if s = "B  " then Except.error 7 else Except.ok s.length

/-- Concrete upload oracle: fails exactly on singleton batches. -/
def sampleUpload : List (Product Nat) → Except Nat Unit :=
  fun b => if b.length = 1 then Except.error 7 else Except.ok ()

theorem errors_propagate_without_retry_witness :
    sampleEmbed (textToEmbed sampleBad) = Except.error 7
    ∧ sampleUpload [sampleBad] = Except.error 7
    ∧ (generate_embeddings_try sampleEmbed ([sampleGood] ++ sampleBad :: [])
        = ⟨[sampleGood].map (applyEmbedTry sampleEmbed) ++ sampleBad :: [],
           ([sampleGood] ++ [sampleBad]).map textToEmbed, some 7⟩
      ∧ upload_batches_try sampleUpload ([[]] ++ [sampleBad] :: [])
        = ([[]] ++ [[sampleBad]], some 7)
      ∧ main_try (Except.error 7) sampleEmbed sampleUpload [sampleGood]
        = ([], [], some 7)
      ∧ main_try (Except.ok ()) sampleEmbed sampleUpload ([sampleGood] ++ sampleBad :: [])
        = (([sampleGood] ++ [sampleBad]).map textToEmbed, [], some 7)) :=
  ⟨rfl, rfl,
   errors_propagate_without_retry sampleEmbed sampleUpload [sampleGood] sampleBad []
     [[]] [sampleBad] [] 7
     (by intro p hp; rw [List.mem_singleton] at hp; subst hp; rfl)
     rfl
     (by intro b hb; rw [List.mem_singleton] at hb; subst hb; rfl)
     rfl⟩

/-- An external side effect performed by `main`, in call order. -/
inductive MainEvent (E : Type) where
  | create_or_update_index (schema : SearchIndex)
  | load_file (path : String)
  | embedding_request (input : String)
  | upload_documents (batch : List (Product E))
deriving DecidableEq

/-- `main()` on the success path, composed from the script's own steps in
source order: `create_index`, load the JSON file, `generate_embeddings`
on the loaded list, `upload_products` on the same (mutated) list. Returns
the trace of external calls. -/
def main_run (embed : String → E) (loaded : List (Product E))
    (index_name : String) : List (MainEvent E) :=
  MainEvent.create_or_update_index (create_product_index_schema index_name)
    :: MainEvent.load_file "zava_product_data/product_data_flat.json"
    :: ((generate_embeddings embed loaded).requests.map MainEvent.embedding_request
      ++ (uploadBatches (generate_embeddings embed loaded).products).map
          MainEvent.upload_documents)

/-- Claim C8: `main` runs strictly sequentially: index creation, then the
file load, then all embedding requests, then all document uploads; the
list handed to the upload step is exactly the embedded list — so every
uploaded record carries its `embedding` — and the upload batches
reassemble to that list, the only state flowing between steps. -/
theorem main_sequential_order (embed : String → E) (loaded : List (Product E))
    (index_name : String) :
    main_run embed loaded index_name
      = MainEvent.create_or_update_index (create_product_index_schema index_name)
        :: MainEvent.load_file "zava_product_data/product_data_flat.json"
        :: (loaded.map (fun p => MainEvent.embedding_request (textToEmbed p))
          ++ (uploadBatches (loaded.map (fun p =>
                { p with embedding := some (embed (textToEmbed p)) }))).map
              MainEvent.upload_documents)
    ∧ (uploadBatches (generate_embeddings embed loaded).products).flatten
        = (generate_embeddings embed loaded).products
    ∧ ((generate_embeddings embed loaded).products.all
        fun p => p.embedding.isSome) = true := by
  have hprod : (generate_embeddings embed loaded).products =
      loaded.map (fun p => { p with embedding := some (embed (textToEmbed p)) }) := by
    rw [show (generate_embeddings embed loaded).products
        = (generateEmbeddingsLoop embed loaded.length 0 loaded).products from rfl]
    exact generateEmbeddingsLoop_products embed loaded.length 0 loaded
  have hreq : (generate_embeddings embed loaded).requests = loaded.map textToEmbed := by
    rw [show (generate_embeddings embed loaded).requests
        = (generateEmbeddingsLoop embed loaded.length 0 loaded).requests from rfl]
    exact generateEmbeddingsLoop_requests embed loaded.length 0 loaded
  refine ⟨?_, ?_, ?_⟩
  · rw [main_run, hprod, hreq, List.map_map]
    rfl
  · simpa using uploadBatchesFrom_join (generate_embeddings embed loaded).products 0
  · rw [hprod, List.all_map]
    simp [Function.comp]

/-- A search result document as consumed by `render_product_results`: the
product fields returned by the index plus the scores attached by the
search service. Score and price values are floats in the source; they are
only formatted, never computed on, so they are carried opaquely in types
`S` and `P` and the `:.3f` and `:.2f` format specifiers are oracles. -/
structure ResultDoc (S P : Type) where
  search_score : S
  search_reranker_score : S
  name : String
  description : String
  categories : List String
  price : P
  sku : String

/-- Python character slicing `s[:n]`: the first `n` code points. -/
def pySlice (s : String) (n : Nat) : String := ⟨s.data.take n⟩

/-- The Description cell of a row:
`doc["description"][:80] + "..." if len(doc["description"]) > 80 else doc["description"]`. -/
def descriptionCell (s : String) : String :=
  if s.length > 80 then pySlice s 80 ++ "..." else s

/-- One row of the table built by `render_product_results`, in column
order: Score, optional Reranker, Name, Description, Categories, Price,
SKU. `fmt3` and `fmt2` are the `:.3f` and `:.2f` formatters. -/
def renderRow (fmt3 : S → String) (fmt2 : P → String)
    (show_reranker : Bool) (doc : ResultDoc S P) : List String :=
  [fmt3 doc.search_score]
    ++ (if show_reranker then [fmt3 doc.search_reranker_score] else [])
    ++ [doc.name,
        descriptionCell doc.description,
        String.intercalate ", " doc.categories,
        "$" ++ fmt2 doc.price,
        doc.sku]

/-- `render_product_results`: one row per result document, in order. -/
def render_product_results (fmt3 : S → String) (fmt2 : P → String)
    (results : List (ResultDoc S P)) (show_reranker : Bool) : List (List String) :=
  results.map (renderRow fmt3 fmt2 show_reranker)

theorem pySlice_length (s : String) (n : Nat) :
    (pySlice s n).length = min n s.length := by
  rw [show (pySlice s n).length = (s.data.take n).length from rfl]
  rw [List.length_take]
  rfl

/-- Claim C9: the rendered Description cell is the description verbatim
when it has at most 80 characters, and otherwise its first 80 characters
followed by three dots, so it never exceeds 83 characters; all other
cells are built from the unmodified fields of the document, in column
order, by the formatting of the source. -/
theorem render_description_truncation (fmt3 : S → String) (fmt2 : P → String)
    (show_reranker : Bool) (doc : ResultDoc S P) :
    (doc.description.length ≤ 80 → descriptionCell doc.description = doc.description)
    ∧ (80 < doc.description.length →
        descriptionCell doc.description = pySlice doc.description 80 ++ "...")
    ∧ (descriptionCell doc.description).length ≤ 83
    ∧ render_product_results fmt3 fmt2 [doc] show_reranker
      = [[fmt3 doc.search_score]
          ++ (if show_reranker then [fmt3 doc.search_reranker_score] else [])
          ++ [doc.name,
              descriptionCell doc.description,
              String.intercalate ", " doc.categories,
              "$" ++ fmt2 doc.price,
              doc.sku]] := by
  refine ⟨?_, ?_, ?_, rfl⟩
  · intro h
    rw [descriptionCell, if_neg (by omega)]
  · intro h
    rw [descriptionCell, if_pos (by omega)]
  · rw [descriptionCell]
    by_cases h : doc.description.length > 80
    · rw [if_pos h, String.length_append, pySlice_length]
      have : ("..." : String).length = 3 := rfl
      omega
    · rw [if_neg h]
      omega

/-- Sample result document with an 81-character description. -/
def sampleLongDoc : ResultDoc Nat Nat :=
  { search_score := 0, search_reranker_score := 0, name := "N",
    description := String.mk (List.replicate 81 'd'),
    categories := ["c1", "c2"], price := 5, sku := "sku9" }

/-- Sample result document with a short description. -/
def sampleShortDoc : ResultDoc Nat Nat :=
  { search_score := 0, search_reranker_score := 0, name := "N",
    description := "short", categories := [], price := 5, sku := "sku9" }

theorem render_description_truncation_witness :
    sampleShortDoc.description.length ≤ 80
    ∧ descriptionCell sampleShortDoc.description = sampleShortDoc.description
    ∧ 80 < sampleLongDoc.description.length
    ∧ descriptionCell sampleLongDoc.description
        = pySlice sampleLongDoc.description 80 ++ "..." :=
  ⟨by decide,
   (render_description_truncation (fun n : Nat => toString n)
     (fun n : Nat => toString n) false sampleShortDoc).1 (by decide),
   by decide,
   (render_description_truncation (fun n : Nat => toString n)
     (fun n : Nat => toString n) false sampleLongDoc).2.1 (by decide)⟩
